import Mathlib

/-!
Shallow embedding of the analysis subsystem of the Stock-Predictive-Model
repository (src/analysis/technical_indicators.py, seasonality_analysis.py,
predictive_model.py, analysis_orchestrator.py).

Conventions of the embedding:
* pandas float values are modelled as rationals; a possibly-NaN entry is an
  Option value (none = NaN).
* a pandas Series over the row index is modelled either as a function from
  the row index, or as a list of per-row values when the frame length is at
  stake; rows are indexed from 0.
* float division edge cases are made explicit: where the Python code divides
  by a quantity that can be zero, the embedding spells out the IEEE outcome
  the surrounding code relies on (x/0 = +inf for x > 0, 0/0 = NaN).
* sklearn classifiers are opaque: a trained model is an arbitrary pair of
  total functions giving the predicted class and the class-1 probability of
  a feature vector.
-/

namespace StockModel

/-! ## Common numeric helpers (pandas rolling / ewm over the row index) -/

/-- Mean of a finite list of rationals, as summed by pandas (sum divided by
length; empty list gives 0/0 which the call sites guard against). -/
def meanQ (xs : List ℚ) : ℚ := xs.sum / xs.length

/-- Entry t of pandas Series.rolling(w).mean() over a NaN-free series x:
defined once w observations exist (t+1 at least w), the mean of
x (t-w+1) .. x t; NaN (none) before that.  Default min_periods equals the
window, as in every call in this repository. -/
def rollingMeanAt (w : ℕ) (x : ℕ → ℚ) (t : ℕ) : Option ℚ :=
  if w ≤ t + 1 then some ((∑ j in Finset.range w, x (t + 1 - w + j)) / w) else none

/-- Entry t of pandas Series.ewm(alpha=a, adjust=False).mean() over a
NaN-free series: y 0 = x 0 and y (t+1) = (1-a) * y t + a * x (t+1). -/
def ewmRecAt (a : ℚ) (x : ℕ → ℚ) : ℕ → ℚ
  | 0 => x 0
  | t + 1 => (1 - a) * ewmRecAt a x t + a * x (t + 1)

/-- Numerator of pandas Series.ewm(span).mean() with the default
adjust=True: n t = sum over i of b^(t-i) * x i with b = 1 - alpha. -/
def ewmSpanNum (b : ℚ) (x : ℕ → ℚ) : ℕ → ℚ
  | 0 => x 0
  | t + 1 => b * ewmSpanNum b x t + x (t + 1)

/-- Denominator of pandas Series.ewm(span).mean() with adjust=True:
d t = sum over i of b^(t-i). -/
def ewmSpanDen (b : ℚ) : ℕ → ℚ
  | 0 => 1
  | t + 1 => b * ewmSpanDen b t + 1

/-- Entry t of pandas Series.ewm(span=s).mean() (adjust=True, the default
used throughout the repository), with alpha = 2/(s+1). -/
def ewmSpanAt (s : ℕ) (x : ℕ → ℚ) (t : ℕ) : ℚ :=
  ewmSpanNum (1 - 2 / (s + 1)) x t / ewmSpanDen (1 - 2 / (s + 1)) t

/-! ## RSI: predictive_model.prepare_features (lines 73-78) and
TechnicalIndicators.calculate_rsi (line 72, delegating to
ta.momentum.RSIIndicator) -/

/-- Per-row gain series feeding both RSI computations.  Both
`price_changes.where(price_changes > 0, 0)` (predictive_model.py line 75)
and `diff.where(diff > 0, 0.0)` (inside ta.momentum.RSIIndicator) turn the
NaN of diff at row 0 into 0, because a NaN comparison is False. -/
def gainAt (c : ℕ → ℚ) : ℕ → ℚ
  | 0 => 0
  | t + 1 => max (c (t + 1) - c t) 0

/-- Per-row loss series feeding both RSI computations (same NaN-to-0
treatment at row 0 as `gainAt`). -/
def lossAt (c : ℕ → ℚ) : ℕ → ℚ
  | 0 => 0
  | t + 1 => max (c t - c (t + 1)) 0

/-- Final RSI formula 100 - 100/(1 + g/l) shared by predictive_model.py
line 77-78 and ta.momentum.RSIIndicator, with the IEEE float edge cases of
the division g/l spelled out: l = 0 < g gives rs = +inf hence RSI = 100,
g = l = 0 gives rs = NaN hence RSI = NaN (none). -/
def rsiFromAverages (g l : ℚ) : Option ℚ :=
  if l = 0 then (if g = 0 then none else some 100)
  else some (100 - 100 / (1 + g / l))

/-- Entry t of the RSI feature of StockPredictor.prepare_features
(predictive_model.py lines 73-78): simple 14-row rolling means of the gain
and loss series, then the RSI formula. -/
def pmRSIAt (c : ℕ → ℚ) (t : ℕ) : Option ℚ :=
  (rollingMeanAt 14 (gainAt c) t).bind fun g =>
    (rollingMeanAt 14 (lossAt c) t).bind fun l => rsiFromAverages g l

/-- Entry t of TechnicalIndicators.calculate_rsi (technical_indicators.py
line 72): ta.momentum.RSIIndicator(close, window=14).rsi(), i.e. Wilder
smoothing ewm(alpha=1/14, min_periods=14, adjust=False) of the gain and
loss series, then the RSI formula; min_periods=14 masks rows 0..12. -/
def taRSIAt (c : ℕ → ℚ) (t : ℕ) : Option ℚ :=
  if 13 ≤ t then
    rsiFromAverages (ewmRecAt (1 / 14) (gainAt c) t) (ewmRecAt (1 / 14) (lossAt c) t)
  else none

/-! ## StockPredictor.predict_next_day probability mapping
(predictive_model.py lines 234-243) -/

/-- Direction and confidence labels computed from the class-1 probability by
StockPredictor.predict_next_day (predictive_model.py lines 234-243). -/
def predict_next_day_mapping (p : ℚ) : String × String :=
  if p > 6 / 10 then ("bullish", if p > 75 / 100 then "high" else "medium")
  else if p < 4 / 10 then ("bearish", if p < 25 / 100 then "high" else "medium")
  else ("neutral", if |p - 5 / 10| > 5 / 100 then "medium" else "low")

/-! ## StockPredictor.backtest_model (predictive_model.py lines 266-337) -/

/-- Row of the frame seen by backtest_model: the Close price, the feature
vector (none when any feature of that row is NaN, which makes the code skip
the iteration) and the Next_Day_Direction column. -/
structure BRow where
  close : ℚ
  feat : Option (List ℚ)
  dir : Bool
deriving DecidableEq, Repr

instance : Inhabited BRow := ⟨⟨0, none, false⟩⟩

/-- Opaque trained sklearn classifier: predicted class and class-1
probability of a feature vector (best_model.predict and
best_model.predict_proba; the scaling applied in the logistic-regression
branch is absorbed into the functions). -/
structure PredModel where
  predictClass : List ℚ → Bool
  probClass1 : List ℚ → ℚ

/-- First loop of backtest_model (lines 280-306): for i in
range(1, len(backtest_data)), take the features of row i-1; skip the
iteration when they contain NaN; otherwise record the iteration index i,
the predicted class and the class-1 probability. -/
def backtestSteps (m : PredModel) (rows : List BRow) : List (ℕ × Bool × ℚ) :=
  (List.range (rows.length - 1)).filterMap fun k =>
    match (rows.getD k default).feat with
    | none => none
    | some f => some (k + 1, m.predictClass f, m.probClass1 f)

/-- Position rule of the strategy loop (lines 320-325): long the return when
the predicted class is 1 with probability above 0.6, short it (negate) when
the class is 0 with probability below 0.4, flat (0) otherwise. -/
def positionReturn (pred : Bool) (prob : ℚ) (r : ℚ) : ℚ :=
  if pred = true ∧ prob > 6 / 10 then r
  else if pred = false ∧ prob < 4 / 10 then -r
  else 0

/-- Second loop of backtest_model (lines 315-325): the k-th recorded step is
paired with actual_return = close (k+1) / close k - 1 computed with the
position k of the step in the filtered predictions list, not its recorded
iteration index; the guard i < len(actuals) of line 317 always holds since
predictions and actuals have the same length. -/
def strategyReturns (rows : List BRow) (steps : List (ℕ × Bool × ℚ)) : List ℚ :=
  (List.range steps.length).map fun k =>
    let s := steps.getD k (0, false, 0)
    positionReturn s.2.1 s.2.2 ((rows.getD (k + 1) default).close / (rows.getD k default).close - 1)

/-- Result dictionary of backtest_model (lines 330-337). -/
structure BacktestResult where
  accuracy : ℚ
  total_return : ℚ
  win_rate : ℚ
  total_trades : ℕ
  avg_probability : ℚ
  strategy_returns : List ℚ
deriving DecidableEq, Repr

/-- StockPredictor.backtest_model (lines 266-337): restrict to the trailing
days_back rows (tail, default 252 at the call sites), run the prediction
loop, return the empty dict (none) when no prediction survived, else the
metrics dictionary; win_rate is count(r > 0)/len over the recorded strategy
returns (0 for an empty list) and total_return is their sum. -/
def backtest_model (m : PredModel) (rows : List BRow) (days_back : ℕ) : Option BacktestResult :=
  let bd := rows.drop (rows.length - days_back)
  let steps := backtestSteps m bd
  if steps = [] then none
  else
    let sr := strategyReturns bd steps
    some
      { accuracy := ((steps.filter fun s => s.2.1 == (bd.getD s.1 default).dir).length : ℚ) / steps.length
        total_return := sr.sum
        win_rate := if sr = [] then 0 else ((sr.filter fun r => 0 < r).length : ℚ) / sr.length
        total_trades := steps.length
        avg_probability := meanQ (steps.map fun s => s.2.2)
        strategy_returns := sr }

/-! ## SeasonalityAnalyzer (seasonality_analysis.py) -/

/-- Row of the seasonality frame: calendar month of the index date, Close
and Volume (the columns analyze_monthly_seasonality reads). -/
structure SRow where
  month : ℕ
  close : ℚ
  volume : ℚ
deriving DecidableEq, Repr

instance : Inhabited SRow := ⟨⟨0, 0, 0⟩⟩

/-- Daily_Return column (seasonality_analysis.py line 35,
Close.pct_change()): NaN at row 0, close t / close (t-1) - 1 afterwards. -/
def dailyReturns (rows : List SRow) : List (Option ℚ) :=
  (List.range rows.length).map fun t =>
    if t = 0 then none
    else some ((rows.getD t default).close / (rows.getD (t - 1) default).close - 1)

/-- Rows of the frame paired with their Daily_Return entry. -/
def withReturns (rows : List SRow) : List (SRow × Option ℚ) :=
  rows.zip (dailyReturns rows)

/-- month_data of analyze_monthly_seasonality (line 64): the rows whose
Month column equals m, with their Daily_Return entries. -/
def monthBucket (rows : List SRow) (m : ℕ) : List (SRow × Option ℚ) :=
  (withReturns rows).filter fun rr => rr.1.month == m

/-- Daily_Return values of a bucket that pandas aggregates with skipna
(mean, median, std): the defined (non-NaN) returns, in row order. -/
def bucketReturns (b : List (SRow × Option ℚ)) : List ℚ :=
  b.filterMap fun rr => rr.2

/-- pandas Series.mean() with skipna: NaN (none) when no defined value
exists, else the mean of the defined values. -/
def avgReturnOf (b : List (SRow × Option ℚ)) : Option ℚ :=
  if bucketReturns b = [] then none else some (meanQ (bucketReturns b))

/-- pandas Series.median() with skipna: sort the defined values, middle
element for odd length, mean of the two middle elements for even length. -/
def medianQ (xs : List ℚ) : Option ℚ :=
  if xs = [] then none
  else
    let s := xs.mergeSort fun a b => a ≤ b
    if xs.length % 2 = 1 then some (s.getD (xs.length / 2) 0)
    else some ((s.getD (xs.length / 2 - 1) 0 + s.getD (xs.length / 2) 0) / 2)

/-- median_return entry of the monthly stats dictionary. -/
def medianReturnOf (b : List (SRow × Option ℚ)) : Option ℚ :=
  medianQ (bucketReturns b)

/-- pandas Series.std() squared (ddof=1): NaN with fewer than two defined
values (0/0 for exactly one), else the sample variance of the defined
values. -/
def sampleVar (xs : List ℚ) : Option ℚ :=
  if xs.length < 2 then none
  else some ((xs.map fun x => (x - meanQ xs) ^ 2).sum / ((xs.length : ℚ) - 1))

/-- std_return entry of the monthly stats dictionary: square root of the
sample variance of the defined returns. -/
noncomputable def stdReturnOf (b : List (SRow × Option ℚ)) : Option ℝ :=
  (sampleVar (bucketReturns b)).map fun v => Real.sqrt (v : ℝ)

/-- positive_days entry ((month_data.Daily_Return > 0).sum(), line 72): a
NaN return compares False, so only defined positive returns are counted. -/
def positiveDaysOf (b : List (SRow × Option ℚ)) : ℕ :=
  (b.filter fun rr => match rr.2 with | some r => decide (0 < r) | none => false).length

/-- total_days entry (len(month_data), line 73): every row of the bucket,
including the row whose Daily_Return is NaN. -/
def totalDaysOf (b : List (SRow × Option ℚ)) : ℕ := b.length

/-- win_rate entry ((month_data.Daily_Return > 0).mean(), line 74): the
boolean comparison series has no NaN (a NaN return compares False), so its
mean divides by the full bucket length; NaN only for an empty bucket. -/
def winRateOf (b : List (SRow × Option ℚ)) : Option ℚ :=
  if b = [] then none else some ((positiveDaysOf b : ℚ) / b.length)

/-- avg_volume entry (line 75). -/
def avgVolumeOf (b : List (SRow × Option ℚ)) : Option ℚ :=
  if b = [] then none else some (meanQ (b.map fun rr => rr.1.volume))

/-- avg_price_change entry (line 76): pct_change computed inside the
filtered bucket (consecutive bucket rows), then skipna mean. -/
def avgPriceChangeOf (b : List (SRow × Option ℚ)) : Option ℚ :=
  let cs := b.map fun rr => rr.1.close
  let p := List.zipWith (fun curr prev => curr / prev - 1) cs.tail cs
  if p = [] then none else some (meanQ p)

/-- Monthly statistics dictionary entry built at seasonality_analysis.py
lines 67-77 (month_name, a presentation string, is not modelled). -/
structure MonthStats where
  avg_return : Option ℚ
  median_return : Option ℚ
  std_return : Option ℝ
  positive_days : ℕ
  total_days : ℕ
  win_rate : Option ℚ
  avg_volume : Option ℚ
  avg_price_change : Option ℚ

/-- Statistics of one bucket, as assembled at lines 67-77. -/
noncomputable def monthStatsOf (b : List (SRow × Option ℚ)) : MonthStats :=
  { avg_return := avgReturnOf b
    median_return := medianReturnOf b
    std_return := stdReturnOf b
    positive_days := positiveDaysOf b
    total_days := totalDaysOf b
    win_rate := winRateOf b
    avg_volume := avgVolumeOf b
    avg_price_change := avgPriceChangeOf b }

/-- SeasonalityAnalyzer.analyze_monthly_seasonality (lines 51-79): for each
month 1..12 whose bucket is non-empty, the statistics dictionary. -/
noncomputable def analyze_monthly_seasonality (rows : List SRow) : List (ℕ × MonthStats) :=
  ((List.range 12).map fun i => i + 1).filterMap fun m =>
    if monthBucket rows m = [] then none else some (m, monthStatsOf (monthBucket rows m))

/-! ## TechnicalIndicators.calculate_moving_averages
(technical_indicators.py lines 43-60) -/

/-- Name of a column added by calculate_moving_averages. -/
inductive MACol where
  | ma : ℕ → MACol
  | ema : ℕ → MACol
deriving DecidableEq, Repr

/-- View of a list of closes as an index function (entries past the length
are never consulted by the windows used below). -/
def closesFun (closes : List ℚ) : ℕ → ℚ := fun i => closes.getD i 0

/-- Series.rolling(w).mean() over a whole close column, as a column of the
same length. -/
def rollingMeanL (w : ℕ) (closes : List ℚ) : List (Option ℚ) :=
  (List.range closes.length).map fun t => rollingMeanAt w (closesFun closes) t

/-- Series.ewm(span=s).mean() over a whole close column, as a column of the
same length (adjust=True, never NaN on a NaN-free input). -/
def ewmSpanL (s : ℕ) (closes : List ℚ) : List ℚ :=
  (List.range closes.length).map fun t => ewmSpanAt s (closesFun closes) t

/-- Result frame of calculate_moving_averages: the copied input frame keeps
its length; cols lists the added MA/EMA columns in order. -/
structure MAFrame where
  nrows : ℕ
  cols : List (MACol × List (Option ℚ))
deriving DecidableEq, Repr

/-- TechnicalIndicators.calculate_moving_averages (lines 43-60): for each
requested period, the MA_p and EMA_p columns are added only under the guard
period <= len(self.data) (line 56); a longer period adds nothing. -/
def calculate_moving_averages (closes : List ℚ) (periods : List ℕ) : MAFrame :=
  { nrows := closes.length
    cols := periods.flatMap fun p =>
      if p ≤ closes.length then
        [(MACol.ma p, rollingMeanL p closes), (MACol.ema p, (ewmSpanL p closes).map some)]
      else [] }

/-! ## TechnicalIndicators.calculate_trend_signals
(technical_indicators.py lines 160-204) -/

/-- np.where comparison of two possibly-NaN values giving 1 when defined and
strictly greater, else -1 (a NaN comparison is False). -/
def optGtSig (a b : Option ℚ) : ℚ :=
  match a, b with
  | some x, some y => if x > y then 1 else -1
  | _, _ => -1

/-- ma_trend_short entry at row t: np.where(Close > ma_20, 1, -1). -/
def maTrendShortAt (closes : List ℚ) (t : ℕ) : ℚ :=
  optGtSig (some (closes.getD t 0)) (rollingMeanAt 20 (closesFun closes) t)

/-- ma_trend_medium entry at row t: np.where(ma_20 > ma_50, 1, -1). -/
def maTrendMediumAt (closes : List ℚ) (t : ℕ) : ℚ :=
  optGtSig (rollingMeanAt 20 (closesFun closes) t) (rollingMeanAt 50 (closesFun closes) t)

/-- ma_trend_long entry at row t: np.where(ma_50 > ma_200, 1, -1). -/
def maTrendLongAt (closes : List ℚ) (t : ℕ) : ℚ :=
  optGtSig (rollingMeanAt 50 (closesFun closes) t) (rollingMeanAt 200 (closesFun closes) t)

/-- overall_trend entry at row t: row mean of the three trend signals. -/
def overallTrendAt (closes : List ℚ) (t : ℕ) : ℚ :=
  (maTrendShortAt closes t + maTrendMediumAt closes t + maTrendLongAt closes t) / 3

/-- rsi_oversold entry at row t: np.where(rsi < 30, 1, 0), NaN giving 0. -/
def rsiOversoldAt (closes : List ℚ) (t : ℕ) : ℚ :=
  match taRSIAt (closesFun closes) t with
  | some v => if v < 30 then 1 else 0
  | none => 0

/-- rsi_overbought entry at row t: np.where(rsi > 70, 1, 0), NaN giving 0. -/
def rsiOverboughtAt (closes : List ℚ) (t : ℕ) : ℚ :=
  match taRSIAt (closesFun closes) t with
  | some v => if v > 70 then 1 else 0
  | none => 0

/-- MACD line: ewm(span=12) minus ewm(span=26) of the closes
(calculate_macd delegating to ta.trend.MACD with the default smoothing). -/
def macdAt (c : ℕ → ℚ) (t : ℕ) : ℚ := ewmSpanAt 12 c t - ewmSpanAt 26 c t

/-- MACD signal line: ewm(span=9) of the MACD line. -/
def macdSignalAt (c : ℕ → ℚ) (t : ℕ) : ℚ := ewmSpanAt 9 (macdAt c) t

/-- macd_bullish entry: crossover test against the shifted series; at row 0
the shifted values are NaN, the comparison is False and the entry is 0. -/
def macdBullishAt (c : ℕ → ℚ) : ℕ → ℚ
  | 0 => 0
  | t + 1 =>
    if macdAt c (t + 1) > macdSignalAt c (t + 1) ∧ macdAt c t ≤ macdSignalAt c t then 1 else 0

/-- macd_bearish entry: the symmetric crossover test, 0 at row 0. -/
def macdBearishAt (c : ℕ → ℚ) : ℕ → ℚ
  | 0 => 0
  | t + 1 =>
    if macdAt c (t + 1) < macdSignalAt c (t + 1) ∧ macdAt c t ≥ macdSignalAt c t then 1 else 0

/-- Materialize an index function as the column of a frame with n rows. -/
def seriesOf (f : ℕ → ℚ) (n : ℕ) : List ℚ := (List.range n).map f

/-- TechnicalIndicators.calculate_trend_signals (lines 160-204): the signals
dictionary, in insertion order; it always carries these eight keys. -/
def calculate_trend_signals (closes : List ℚ) : List (String × List ℚ) :=
  [("ma_trend_short", seriesOf (maTrendShortAt closes) closes.length),
   ("ma_trend_medium", seriesOf (maTrendMediumAt closes) closes.length),
   ("ma_trend_long", seriesOf (maTrendLongAt closes) closes.length),
   ("overall_trend", seriesOf (overallTrendAt closes) closes.length),
   ("rsi_oversold", seriesOf (rsiOversoldAt closes) closes.length),
   ("rsi_overbought", seriesOf (rsiOverboughtAt closes) closes.length),
   ("macd_bullish", seriesOf (macdBullishAt (closesFun closes)) closes.length),
   ("macd_bearish", seriesOf (macdBearishAt (closesFun closes)) closes.length)]

/-! ## AnalysisOrchestrator (analysis_orchestrator.py) -/

/-- Result of one orchestrator section: a payload, or the keyed error
dictionary produced by an except branch. -/
inductive Keyed (α : Type) where
  | err : String → Keyed α
  | ok : α → Keyed α
deriving DecidableEq, Repr

/-- Technical-analysis section dictionary built at analysis_orchestrator.py
lines 100-104; only the trend_signals entry (the latest-row signal values)
is modelled, as a mapping from signal name to value (current_indicators and
data_with_indicators are separate entries not consulted by any claim). -/
structure TechSection where
  trend_signals : List (String × ℚ)
deriving DecidableEq, Repr

/-- AnalysisOrchestrator._perform_technical_analysis (lines 80-108):
latest_trend starts empty; the guard at line 97 reads
`if not trend_signals`, which is True only for an empty signals dictionary,
in which case trend_signals.iloc raises AttributeError (a dict has no iloc)
and the except branch returns the keyed error; for a non-empty signals
dictionary latest_trend stays the empty mapping. -/
def perform_technical_analysis (closes : List ℚ) : Keyed TechSection :=
  let signals := calculate_trend_signals closes
  if signals.isEmpty then Keyed.err ("AttributeError: dict object has no attribute iloc")
  else Keyed.ok { trend_signals := [] }

/-- Message of the insufficient-data keyed error
(analysis_orchestrator.py lines 126 and 298). -/
def insufficientDataMsg : String := "Insufficient data for prediction (need at least 100 days)"

/-- AnalysisOrchestrator._perform_predictive_analysis (lines 120-152) with
the training-and-prediction pipeline (create_predictive_model and the calls
on the predictor) abstracted as the function train: fewer than 100 rows
return the keyed insufficient-data error without invoking it, otherwise its
result is returned. -/
def perform_predictive_analysis {α β : Type} (train : List α → β) (data : List α) : Keyed β :=
  if data.length < 100 then Keyed.err insufficientDataMsg
  else Keyed.ok (train data)

/-- AnalysisOrchestrator.get_prediction (lines 289-305), with the same
abstraction: empty data gives the no-data keyed error, fewer than 100 rows
the insufficient-data keyed error, otherwise training proceeds. -/
def get_prediction {α β : Type} (train : List α → β) (data : List α) : Keyed β :=
  if data.isEmpty then Keyed.err ("No data found")
  else if data.length < 100 then Keyed.err insufficientDataMsg
  else Keyed.ok (train data)

/-- Merged result assembled by get_comprehensive_analysis (lines 59-71);
the three analysis sections (ticker, dates and summary are separate entries
not consulted by any claim). -/
structure Comprehensive (τ σ π : Type) where
  technical : Keyed τ
  seasonality : Keyed σ
  predictive : Keyed π
deriving DecidableEq, Repr

/-- Inner try/except of each _perform_* method: an internal failure of the
analyzer body (modelled as Except.error) is caught at that boundary and
becomes the keyed error dictionary. -/
def guardSection {α : Type} (body : Except String α) : Keyed α :=
  match body with
  | Except.ok a => Keyed.ok a
  | Except.error e => Keyed.err e

/-- AnalysisOrchestrator.get_comprehensive_analysis (lines 27-78) with the
three analyzer bodies abstracted as Except-valued functions: empty data
returns the no-data error, otherwise each analyzer runs inside its own
try/except and the merged dictionary is returned (the outer try cannot be
reached by an analyzer failure, so the operation itself succeeds). -/
def get_comprehensive_analysis {α τ σ π : Type}
    (tb : List α → Except String τ) (sb : List α → Except String σ)
    (pb : List α → Except String π) (data : List α) : Keyed (Comprehensive τ σ π) :=
  if data.isEmpty then Keyed.err ("No data found")
  else
    Keyed.ok
      { technical := guardSection (tb data)
        seasonality := guardSection (sb data)
        predictive := guardSection (pb data) }

/-! ## Concrete inputs used by counterexamples and witnesses -/

/-- Alternating close sequence 1,2,1,2,... (the first 15 entries form the
PriceBar close column of the RSI counterexample; the RSI entries consulted
read rows 0..14 only). -/
def altCloses : ℕ → ℚ := fun t => if t % 2 = 0 then 1 else 2

/-- Strictly rising close sequence 1,2,3,... -/
def risingCloses : ℕ → ℚ := fun t => (t : ℚ) + 1

/-- Trained model that always predicts class 1 with probability 0.7. -/
def alwaysBullModel : PredModel := ⟨fun _ => true, fun _ => 7 / 10⟩

/-- Four-row backtest frame whose first row has a NaN feature, so the first
backtest iteration is skipped. -/
def skipRows : List BRow :=
  [⟨1, none, true⟩, ⟨2, some [], true⟩, ⟨6, some [], true⟩, ⟨24, some [], true⟩]

/-- Three-row backtest frame with complete features everywhere. -/
def fullRows : List BRow :=
  [⟨1, some [], true⟩, ⟨2, some [], true⟩, ⟨4, some [], true⟩]

/-- Backtest result of alwaysBullModel on fullRows. -/
def fullRowsResult : BacktestResult :=
  { accuracy := 1
    total_return := 2
    win_rate := 1
    total_trades := 2
    avg_probability := 7 / 10
    strategy_returns := [1, 1] }

/-- Two-row January PriceBar frame (close rises 1 to 2). -/
def twoJanRows : List SRow := [⟨1, 1, 10⟩, ⟨1, 2, 10⟩]

/-- Backtest result of alwaysBullModel on skipRows. -/
def skipRowsResult : BacktestResult :=
  { accuracy := 1
    total_return := 3
    win_rate := 1
    total_trades := 2
    avg_probability := 7 / 10
    strategy_returns := [1, 2] }

/-! ## Theorems -/

/-- C4: for every class-1 probability p of the most recent complete feature
row, predict_next_day labels the prediction bullish with confidence high
when p > 0.75 and medium when 0.6 < p <= 0.75; bearish with confidence high
when p < 0.25 and medium when 0.25 <= p < 0.4; and otherwise neutral, with
confidence medium when |p - 0.5| > 0.05 and low otherwise. -/
theorem predict_next_day_probability_mapping (p : ℚ) :
    (p > 75 / 100 → predict_next_day_mapping p = ("bullish", "high")) ∧
    (6 / 10 < p ∧ p ≤ 75 / 100 → predict_next_day_mapping p = ("bullish", "medium")) ∧
    (p < 25 / 100 → predict_next_day_mapping p = ("bearish", "high")) ∧
    (25 / 100 ≤ p ∧ p < 4 / 10 → predict_next_day_mapping p = ("bearish", "medium")) ∧
    (4 / 10 ≤ p ∧ p ≤ 6 / 10 ∧ |p - 5 / 10| > 5 / 100 →
      predict_next_day_mapping p = ("neutral", "medium")) ∧
    (4 / 10 ≤ p ∧ p ≤ 6 / 10 ∧ |p - 5 / 10| ≤ 5 / 100 →
      predict_next_day_mapping p = ("neutral", "low")) := by
  unfold predict_next_day_mapping
  refine ⟨fun h => ?_, fun h => ?_, fun h => ?_, fun h => ?_, fun h => ?_, fun h => ?_⟩
  · rw [if_pos (by linarith), if_pos h]
  · rw [if_pos h.1, if_neg (by linarith [h.2])]
  · rw [if_neg (by linarith), if_pos (by linarith), if_pos h]
  · rw [if_neg (by linarith [h.2]), if_pos h.2, if_neg (by linarith [h.1])]
  · rw [if_neg (by linarith [h.2.1]), if_neg (by linarith [h.1]), if_pos h.2.2]
  · rw [if_neg (by linarith [h.2.1]), if_neg (by linarith [h.1]),
      if_neg (by exact not_lt.mpr h.2.2)]

/-- Witness for C4 at p = 0.8. -/
theorem predict_next_day_probability_mapping_witness :
    (4 / 5 : ℚ) > 75 / 100 ∧ predict_next_day_mapping (4 / 5) = ("bullish", "high") :=
  ⟨by norm_num, (predict_next_day_probability_mapping (4 / 5)).1 (by norm_num)⟩

/-- C7: with fewer than 100 rows the predictive-analysis path returns the
keyed insufficient-data error without invoking the training pipeline, both
in _perform_predictive_analysis and in get_prediction (for non-empty data);
with 100 or more rows both proceed to training. -/
theorem predictive_insufficient_data_guard {α β : Type}
    (train : List α → β) (data : List α) :
    (data.length < 100 →
      perform_predictive_analysis train data = Keyed.err insufficientDataMsg) ∧
    (100 ≤ data.length →
      perform_predictive_analysis train data = Keyed.ok (train data)) ∧
    (data ≠ [] → data.length < 100 →
      get_prediction train data = Keyed.err insufficientDataMsg) ∧
    (data ≠ [] → 100 ≤ data.length →
      get_prediction train data = Keyed.ok (train data)) := by
  refine ⟨fun h => ?_, fun h => ?_, fun hne h => ?_, fun hne h => ?_⟩
  · simp [perform_predictive_analysis, h]
  · simp [perform_predictive_analysis, Nat.not_lt.mpr h]
  · simp [get_prediction, hne, h]
  · simp [get_prediction, hne, Nat.not_lt.mpr h]

/-- Witness for C7 on a three-row input. -/
theorem predictive_insufficient_data_guard_witness :
    ([0, 0, 0] : List ℕ).length < 100 ∧
    perform_predictive_analysis (fun l : List ℕ => l.length) [0, 0, 0] =
      Keyed.err insufficientDataMsg ∧
    get_prediction (fun l : List ℕ => l.length) [0, 0, 0] = Keyed.err insufficientDataMsg :=
  ⟨by norm_num,
   (predictive_insufficient_data_guard _ _).1 (by norm_num),
   (predictive_insufficient_data_guard (fun l : List ℕ => l.length) [0, 0, 0]).2.2.1
     (by simp) (by norm_num)⟩

/-- C8: on non-empty data, when exactly one of the three analyzer bodies
fails internally, get_comprehensive_analysis still returns successfully (no
exception escapes), the failing analyzer's section is the keyed error
object, and the other two sections carry those analyzers' results. -/
theorem analyzer_failure_isolation {α τ σ π : Type}
    (tb : List α → Except String τ) (sb : List α → Except String σ)
    (pb : List α → Except String π) (data : List α) (hd : data ≠ []) :
    (∀ e s p, tb data = Except.error e → sb data = Except.ok s → pb data = Except.ok p →
      get_comprehensive_analysis tb sb pb data =
        Keyed.ok ⟨Keyed.err e, Keyed.ok s, Keyed.ok p⟩) ∧
    (∀ t e p, tb data = Except.ok t → sb data = Except.error e → pb data = Except.ok p →
      get_comprehensive_analysis tb sb pb data =
        Keyed.ok ⟨Keyed.ok t, Keyed.err e, Keyed.ok p⟩) ∧
    (∀ t s e, tb data = Except.ok t → sb data = Except.ok s → pb data = Except.error e →
      get_comprehensive_analysis tb sb pb data =
        Keyed.ok ⟨Keyed.ok t, Keyed.ok s, Keyed.err e⟩) := by
  refine ⟨fun e s p h1 h2 h3 => ?_, fun t e p h1 h2 h3 => ?_, fun t s e h1 h2 h3 => ?_⟩ <;>
    simp [get_comprehensive_analysis, guardSection, hd, h1, h2, h3]

/-- Witness for C8: the technical body fails on one-row data, the other two
succeed, and the merged result carries their payloads beside the keyed
error. -/
theorem analyzer_failure_isolation_witness :
    get_comprehensive_analysis (fun _ : List ℕ => (Except.error ("tech failed") : Except String ℕ))
      (fun _ => (Except.ok 1 : Except String ℕ)) (fun _ => (Except.ok 2 : Except String ℕ)) [0] =
      Keyed.ok ⟨Keyed.err ("tech failed"), Keyed.ok 1, Keyed.ok 2⟩ :=
  (analyzer_failure_isolation _ _ _ [0] (by simp)).1 ("tech failed") 1 2 rfl rfl rfl

/-- C10: for every non-empty close column on which the technical-analysis
step returns without error, the trend_signals entry of its section is the
empty mapping: the guard at analysis_orchestrator.py line 97 tests for the
signals dictionary being empty instead of non-empty, so the latest-row
signals are never extracted. -/
theorem trend_signals_never_populated (closes : List ℚ) (_h : closes ≠ []) :
    perform_technical_analysis closes = Keyed.ok { trend_signals := [] } := rfl

/-- Witness for C10 on a one-row close column. -/
theorem trend_signals_never_populated_witness :
    ([(1 : ℚ)] ≠ []) ∧
    perform_technical_analysis [(1 : ℚ)] = Keyed.ok { trend_signals := [] } :=
  ⟨by simp, trend_signals_never_populated [(1 : ℚ)] (by simp)⟩

/-- Helper: a rolling-mean column has the length of its close column. -/
theorem rollingMeanL_length (w : ℕ) (closes : List ℚ) :
    (rollingMeanL w closes).length = closes.length := by
  simp [rollingMeanL]

/-- Helper: an ewm column has the length of its close column. -/
theorem ewmSpanL_length (s : ℕ) (closes : List ℚ) :
    (ewmSpanL s closes).length = closes.length := by
  simp [ewmSpanL]

/-- C5 (amended is not needed, the claim holds): the reported win_rate of a
non-empty backtest is the count of strictly positive recorded returns over
their number, and the reported total_return is their sum, exactly. -/
theorem backtest_aggregates_from_returns (m : PredModel) (rows : List BRow)
    (days_back : ℕ) (res : BacktestResult)
    (hres : backtest_model m rows days_back = some res)
    (hne : res.strategy_returns ≠ []) :
    res.win_rate = ((res.strategy_returns.filter fun r => 0 < r).length : ℚ) /
      res.strategy_returns.length ∧
    res.total_return = res.strategy_returns.sum := by
  simp only [backtest_model] at hres
  split at hres
  · exact Option.noConfusion hres
  · rw [Option.some.injEq] at hres
    subst hres
    exact ⟨if_neg hne, rfl⟩

/-- Witness for C5: a three-row backtest with two recorded returns. -/
theorem backtest_aggregates_from_returns_witness :
    backtest_model alwaysBullModel fullRows 252 = some fullRowsResult ∧
    fullRowsResult.strategy_returns ≠ [] ∧
    fullRowsResult.win_rate =
      ((fullRowsResult.strategy_returns.filter fun r => 0 < r).length : ℚ) /
        fullRowsResult.strategy_returns.length ∧
    fullRowsResult.total_return = fullRowsResult.strategy_returns.sum := by
  have hbt : backtest_model alwaysBullModel fullRows 252 = some fullRowsResult := by
    norm_num [backtest_model, backtestSteps, strategyReturns, positionReturn, meanQ,
      fullRows, fullRowsResult, alwaysBullModel, List.range_succ, List.getD,
      List.getElem?_cons_zero, List.getElem?_cons_succ, Option.getD_some,
      List.filterMap_cons, List.filter_cons, List.sum_cons, List.cons_ne_nil]
  have hne : fullRowsResult.strategy_returns ≠ [] := by simp [fullRowsResult]
  exact ⟨hbt, hne,
    (backtest_aggregates_from_returns _ _ _ _ hbt hne).1,
    (backtest_aggregates_from_returns _ _ _ _ hbt hne).2⟩

/-- C1 (code bug): on a trailing window whose first row has NaN features,
the first backtest iteration is skipped, so the first retained step is
predicted from the features of row 1 (its recorded iteration index is 2)
and its simulated position is long; the claim attributes to it the realized
close-to-close return of the row immediately after the feature row,
close 2 / close 1 - 1 = 2, but the code records close 1 / close 0 - 1 = 1,
because the strategy loop indexes the frame with the position of the step
in the filtered predictions list instead of its iteration index. -/
theorem backtest_return_misattribution :
    backtest_model alwaysBullModel skipRows 252 = some skipRowsResult ∧
    backtestSteps alwaysBullModel skipRows = [(2, true, 7 / 10), (3, true, 7 / 10)] ∧
    skipRowsResult.strategy_returns = [1, 2] ∧
    (skipRows.getD 2 default).close / (skipRows.getD 1 default).close - 1 = (2 : ℚ) ∧
    ((1 : ℚ) ≠ 2) := by
  refine ⟨?_, ?_, rfl, ?_, by norm_num⟩
  · norm_num [backtest_model, backtestSteps, strategyReturns, positionReturn, meanQ,
      skipRows, skipRowsResult, alwaysBullModel, List.range_succ, List.getD,
      List.getElem?_cons_zero, List.getElem?_cons_succ, Option.getD_some,
      List.filterMap_cons, List.filter_cons, List.sum_cons, List.cons_ne_nil]
  · norm_num [backtestSteps, skipRows, alwaysBullModel, List.range_succ, List.getD,
      List.getElem?_cons_zero, List.getElem?_cons_succ, Option.getD_some,
      List.filterMap_cons]
  · norm_num [skipRows, List.getD, List.getElem?_cons_zero, List.getElem?_cons_succ,
      Option.getD_some]

/-- C3 counterexample: with three rows of history and requested period 5,
the result frame has no MA_5 (or EMA_5) column at all, refuting that the
column is present with every entry missing. -/
theorem ma_long_period_column_absent :
    (calculate_moving_averages [1, 2, 3] [5]).cols = [] ∧
    ¬ ∃ vs, (MACol.ma 5, vs) ∈ (calculate_moving_averages [1, 2, 3] [5]).cols ∧
        vs.length = 3 ∧ ∀ v ∈ vs, v = none := by
  refine ⟨rfl, ?_⟩
  rintro ⟨vs, hmem, -⟩
  rw [show (calculate_moving_averages [1, 2, 3] [5]).cols = [] from rfl] at hmem
  exact absurd hmem (List.not_mem_nil _)

/-- C3 (amended): the frame keeps the input length and no error is raised;
every column that is added has the input length; but a period longer than
the available history is omitted entirely (neither MA nor EMA column is
added) rather than added as an all-missing column. -/
theorem ma_long_period_columns (closes : List ℚ) (periods : List ℕ) :
    (calculate_moving_averages closes periods).nrows = closes.length ∧
    (∀ col vs, (col, vs) ∈ (calculate_moving_averages closes periods).cols →
      vs.length = closes.length) ∧
    (∀ p, p ∈ periods → closes.length < p →
      ∀ vs, (MACol.ma p, vs) ∉ (calculate_moving_averages closes periods).cols ∧
            (MACol.ema p, vs) ∉ (calculate_moving_averages closes periods).cols) := by
  refine ⟨rfl, ?_, ?_⟩
  · intro col vs hmem
    simp only [calculate_moving_averages, List.mem_flatMap] at hmem
    obtain ⟨q, hq, hmem⟩ := hmem
    by_cases hle : q ≤ closes.length
    · rw [if_pos hle] at hmem
      simp only [List.mem_cons, List.mem_singleton, List.not_mem_nil, or_false] at hmem
      rcases hmem with h | h
      · simp only [Prod.mk.injEq] at h
        rw [h.2]
        exact rollingMeanL_length q closes
      · simp only [Prod.mk.injEq] at h
        rw [h.2, List.length_map]
        exact ewmSpanL_length q closes
    · rw [if_neg hle] at hmem
      exact absurd hmem (List.not_mem_nil _)
  · intro p hp hlt vs
    constructor <;> intro hmem <;>
      simp only [calculate_moving_averages, List.mem_flatMap] at hmem <;>
      obtain ⟨q, hq, hmem⟩ := hmem <;>
      by_cases hle : q ≤ closes.length
    · rw [if_pos hle] at hmem
      simp only [List.mem_cons, List.mem_singleton, List.not_mem_nil, or_false] at hmem
      rcases hmem with h | h
      · simp only [Prod.mk.injEq] at h
        obtain ⟨h1, -⟩ := h
        rw [MACol.ma.injEq] at h1
        omega
      · exact MACol.noConfusion (congrArg Prod.fst h)
    · rw [if_neg hle] at hmem
      exact absurd hmem (List.not_mem_nil _)
    · rw [if_pos hle] at hmem
      simp only [List.mem_cons, List.mem_singleton, List.not_mem_nil, or_false] at hmem
      rcases hmem with h | h
      · exact MACol.noConfusion (congrArg Prod.fst h)
      · simp only [Prod.mk.injEq] at h
        obtain ⟨h1, -⟩ := h
        rw [MACol.ema.injEq] at h1
        omega
    · rw [if_neg hle] at hmem
      exact absurd hmem (List.not_mem_nil _)

/-- Witness for C3 at three rows of history and period 5. -/
theorem ma_long_period_columns_witness :
    (5 ∈ [5]) ∧ ([1, 2, 3] : List ℚ).length < 5 ∧
    (MACol.ma 5, ([] : List (Option ℚ))) ∉ (calculate_moving_averages [1, 2, 3] [5]).cols :=
  ⟨by simp, by norm_num,
    ((ma_long_period_columns [1, 2, 3] [5]).2.2 5 (by simp) (by norm_num) []).1⟩

/-- Helper: pandas skipna aggregation sees the same defined returns whether
or not the undefined-return rows are removed from a bucket first. -/
theorem bucketReturns_filter_isSome (b : List (SRow × Option ℚ)) :
    bucketReturns (b.filter fun rr => rr.2.isSome) = bucketReturns b := by
  induction b with
  | nil => rfl
  | cons hd tl ih =>
    rcases h : hd.2 with - | r <;>
      simp [bucketReturns, List.filter_cons, h, List.filterMap_cons] at ih ⊢ <;>
      exact ih

/-- Helper: the count of positive returns also ignores undefined-return
rows. -/
theorem positiveDays_filter_isSome (b : List (SRow × Option ℚ)) :
    positiveDaysOf (b.filter fun rr => rr.2.isSome) = positiveDaysOf b := by
  induction b with
  | nil => rfl
  | cons hd tl ih =>
    rcases h : hd.2 with - | r <;>
      simp [positiveDaysOf, List.filter_cons, h] at ih ⊢
    · exact ih
    · split <;> simp [ih]

/-- C6 counterexample: on a two-row January frame the first row's return is
undefined, exactly one defined return exists (and it is positive), yet the
month bucket reports total_days = 2 and win_rate = 1/2: the first row is
counted in the total_days and win_rate denominators, where exclusion would
give total_days = 1 and win_rate = 1. -/
theorem monthly_first_row_counted :
    ((analyze_monthly_seasonality twoJanRows).map fun p =>
        (p.1, p.2.total_days, p.2.win_rate)) = [(1, 2, some (1 / 2))] ∧
    (bucketReturns (monthBucket twoJanRows 1)).length = 1 ∧
    totalDaysOf (monthBucket twoJanRows 1) = 2 ∧
    winRateOf (monthBucket twoJanRows 1) ≠ some 1 := by
  norm_num [analyze_monthly_seasonality, monthStatsOf, totalDaysOf, winRateOf,
    positiveDaysOf, bucketReturns, monthBucket, withReturns, dailyReturns, twoJanRows,
    List.range_succ, List.getD, List.getElem?_cons_zero, List.getElem?_cons_succ,
    Option.getD_some, List.filter_cons, List.filterMap_cons, List.cons_ne_nil, ne_eq,
    reduceCtorEq]

/-- C6 (amended): the first row's daily return is undefined and is excluded
from the skipna aggregates of its month bucket (mean, median, standard
deviation) and contributes nothing to the count of positive days; but the
row itself still counts toward total_days (the bucket length) and toward
the win_rate denominator (win_rate = positive_days / total_days over all
bucket rows). -/
theorem monthly_skipna_vs_denominators (rows : List SRow) (m : ℕ) :
    (rows ≠ [] → (dailyReturns rows).head? = some none) ∧
    avgReturnOf (monthBucket rows m) =
      avgReturnOf ((monthBucket rows m).filter fun rr => rr.2.isSome) ∧
    medianReturnOf (monthBucket rows m) =
      medianReturnOf ((monthBucket rows m).filter fun rr => rr.2.isSome) ∧
    stdReturnOf (monthBucket rows m) =
      stdReturnOf ((monthBucket rows m).filter fun rr => rr.2.isSome) ∧
    positiveDaysOf (monthBucket rows m) =
      positiveDaysOf ((monthBucket rows m).filter fun rr => rr.2.isSome) ∧
    totalDaysOf (monthBucket rows m) = (monthBucket rows m).length ∧
    (monthBucket rows m ≠ [] → winRateOf (monthBucket rows m) =
      some ((positiveDaysOf (monthBucket rows m) : ℚ) / (monthBucket rows m).length)) := by
  refine ⟨?_, ?_, ?_, ?_, (positiveDays_filter_isSome _).symm, rfl, fun h => if_neg h⟩
  · intro h
    obtain ⟨r, rs, rfl⟩ := List.exists_cons_of_ne_nil h
    simp [dailyReturns, List.range_succ_eq_map]
  · rw [avgReturnOf, avgReturnOf, bucketReturns_filter_isSome]
  · rw [medianReturnOf, medianReturnOf, bucketReturns_filter_isSome]
  · rw [stdReturnOf, stdReturnOf, bucketReturns_filter_isSome]

/-- Witness for C6 on the two-row January frame. -/
theorem monthly_skipna_vs_denominators_witness :
    (dailyReturns twoJanRows).head? = some none ∧
    winRateOf (monthBucket twoJanRows 1) =
      some ((positiveDaysOf (monthBucket twoJanRows 1) : ℚ) /
        (monthBucket twoJanRows 1).length) := by
  refine ⟨(monthly_skipna_vs_denominators twoJanRows 1).1 (by simp [twoJanRows]),
    (monthly_skipna_vs_denominators twoJanRows 1).2.2.2.2.2.2 ?_⟩
  norm_num [monthBucket, withReturns, dailyReturns, twoJanRows, List.range_succ,
    List.getD, List.getElem?_cons_zero, List.getElem?_cons_succ, Option.getD_some,
    List.filter_cons, List.cons_ne_nil, ne_eq, reduceCtorEq]

/-- Helper: a gain-series entry is never negative. -/
theorem gainAt_nonneg (c : ℕ → ℚ) (t : ℕ) : 0 ≤ gainAt c t := by
  cases t with
  | zero => exact le_refl 0
  | succ t0 => exact le_max_right _ _

/-- Helper: on a strictly rising close series every loss entry is 0. -/
theorem lossAt_eq_zero (c : ℕ → ℚ) (hmono : ∀ t, c t < c (t + 1)) (t : ℕ) :
    lossAt c t = 0 := by
  cases t with
  | zero => rfl
  | succ t0 => exact max_eq_right (sub_nonpos.2 (le_of_lt (hmono t0)))

/-- Helper: on a strictly rising close series every gain entry after row 0
is positive. -/
theorem gainAt_pos (c : ℕ → ℚ) (hmono : ∀ t, c t < c (t + 1)) (t : ℕ) :
    0 < gainAt c (t + 1) := by
  rw [gainAt, max_eq_left (le_of_lt (sub_pos.2 (hmono t)))]
  exact sub_pos.2 (hmono t)

/-- Helper: recursive ewm of the zero series is zero. -/
theorem ewmRecAt_zero (a : ℚ) (x : ℕ → ℚ) (hx : ∀ t, x t = 0) (t : ℕ) :
    ewmRecAt a x t = 0 := by
  induction t with
  | zero => exact hx 0
  | succ t0 ih => rw [ewmRecAt, ih, hx]; ring

/-- Helper: recursive ewm of the gain series of a strictly rising close
series is positive from row 1 on. -/
theorem ewmRecAt_gain_pos (c : ℕ → ℚ) (hmono : ∀ t, c t < c (t + 1)) (t : ℕ) (ht : 1 ≤ t) :
    0 < ewmRecAt (1 / 14) (gainAt c) t := by
  induction t with
  | zero => omega
  | succ t0 ih =>
    rw [ewmRecAt]
    rcases Nat.eq_zero_or_pos t0 with rfl | hpos
    · rw [show ewmRecAt (1 / 14) (gainAt c) 0 = 0 from rfl]
      have := gainAt_pos c hmono 0
      nlinarith
    · have h1 := ih hpos
      have h2 := gainAt_pos c hmono t0
      nlinarith

/-- C2 counterexample: on the alternating 15-row close sequence
1,2,1,2,..., both RSI computations are defined at row 13 but disagree: the
predictive model's simple-rolling-mean RSI is 700/13 while the indicator
engine's Wilder-smoothed RSI is a different value. -/
theorem rsi_values_differ :
    pmRSIAt altCloses 13 = some (700 / 13) ∧
    taRSIAt altCloses 13 = some (26572705332810100 / 490839666661891) ∧
    ((700 : ℚ) / 13) ≠ (26572705332810100 : ℚ) / 490839666661891 := by
  refine ⟨?_, ?_, by norm_num⟩
  · norm_num [pmRSIAt, rollingMeanAt, rsiFromAverages, gainAt, lossAt, altCloses,
      Finset.sum_range_succ, max_def]
  · norm_num [taRSIAt, ewmRecAt, rsiFromAverages, gainAt, lossAt, altCloses, max_def]

/-- C2 (amended): the two RSI computations share the 14-day window but not
the smoothing convention (simple 14-row rolling mean in the predictive
model vs exponential Wilder smoothing with alpha 1/14 in the indicator
engine), so they are not numerically identical in general; on a strictly
rising close series the two series agree at every row (both undefined
before row 13 and both 100 from row 13 on). -/
theorem rsi_agreement_on_rising (c : ℕ → ℚ) (hmono : ∀ t, c t < c (t + 1)) (t : ℕ) :
    pmRSIAt c t = taRSIAt c t := by
  rcases lt_or_le t 13 with hlt | hle
  · have h1 : ¬ (14 ≤ t + 1) := by omega
    have h2 : ¬ (13 ≤ t) := by omega
    simp [pmRSIAt, taRSIAt, rollingMeanAt, h1, h2]
  · have hg : rollingMeanAt 14 (gainAt c) t =
        some ((∑ j in Finset.range 14, gainAt c (t + 1 - 14 + j)) / 14) := by
      rw [rollingMeanAt, if_pos (by omega)]
      norm_num
    have hgpos : 0 < (∑ j in Finset.range 14, gainAt c (t + 1 - 14 + j)) / 14 := by
      refine div_pos (Finset.sum_pos' (fun i _ => gainAt_nonneg c _)
        ⟨13, Finset.mem_range.2 (by norm_num), ?_⟩) (by norm_num)
      have h13 : t + 1 - 14 + 13 = t := by omega
      rw [h13]
      obtain ⟨t0, rfl⟩ : ∃ t0, t = t0 + 1 := ⟨t - 1, by omega⟩
      exact gainAt_pos c hmono t0
    have hl : rollingMeanAt 14 (lossAt c) t = some 0 := by
      rw [rollingMeanAt, if_pos (by omega)]
      rw [Finset.sum_eq_zero (fun i _ => lossAt_eq_zero c hmono _), zero_div]
    rw [pmRSIAt, hg, hl, taRSIAt, if_pos hle,
      ewmRecAt_zero (1 / 14) (lossAt c) (lossAt_eq_zero c hmono) t]
    show rsiFromAverages _ 0 = rsiFromAverages _ 0
    rw [rsiFromAverages, rsiFromAverages, if_pos rfl, if_pos rfl,
      if_neg (ne_of_gt hgpos), if_neg (ne_of_gt (ewmRecAt_gain_pos c hmono t (by omega)))]

/-- Witness for C2 on the strictly rising close series at row 13. -/
theorem rsi_agreement_on_rising_witness :
    pmRSIAt risingCloses 13 = taRSIAt risingCloses 13 :=
  rsi_agreement_on_rising risingCloses (fun t => by simp [risingCloses]) 13

end StockModel
